import Mathlib

/-!
Shallow embedding of the Lunatask API client.

The source is a TypeScript class `LunataskAPI` built on axios, with six
operations (ping, retrieveAll, retrieveSingle, createTask, updateTask,
deleteTask), plus the plain data shapes of `src/lunatask/types.ts`.

Modelling choices:
* Parsed JSON response bodies and request bodies are `JsValue` (JavaScript
  runtime values, including `undefined` as produced by property access on a
  missing key).
* The axios transport is a black-box oracle `Request → AxiosResult`:
  `success data` is a 2xx response with parsed body `data` (axios
  `response.data`); `failure e` is a rejected promise — a transport error or
  a non-2xx status (axios rejects on non-2xx by default).
* Each operation is a program in the free-monad-style type `HttpProg`, so
  the number of outbound requests an operation issues against an arbitrary
  oracle is an observable fact, not an assumption.
* `console.error(msg, error)` calls are modelled as emitted log entries
  `(msg, error)`.
* JavaScript truthiness, short-circuit `&&`, strict equality against a
  string literal, and property access (including the TypeError on
  null/undefined) are modelled explicitly.
-/

namespace Lunatask

/-- A JavaScript runtime value as seen by the client: the parse of a JSON
body, plus `undefined` (the result of reading an absent property). -/
inductive JsValue : Type where
  | str : String → JsValue
  | num : Int → JsValue
  | bool : Bool → JsValue
  | null : JsValue
  | undefined : JsValue
  | obj : List (String × JsValue) → JsValue
  | arr : List JsValue → JsValue
  deriving Repr

/-- An error value thrown inside the client’s try blocks: an axios rejection
(network failure, or an HTTP response with non-2xx status and its parsed
body), or a TypeError raised by property access on null/undefined. -/
inductive JsError : Type where
  | axiosNetwork : String → JsError
  | axiosStatus : Nat → JsValue → JsError
  | typeError : String → JsError
  deriving Repr

/-- Outcome of one awaited axios call. -/
inductive AxiosResult : Type where
  | success : JsValue → AxiosResult
  | failure : JsError → AxiosResult
  deriving Repr

/-- JavaScript truthiness of a value (`if (v)` / left operand of `&&`).
Empty strings, zero, `false`, `null` and `undefined` are falsy; every
object and array (even empty) is truthy. -/
def jsTruthy : JsValue → Bool
  | .str s => s ≠ ""
  | .num n => n ≠ 0
  | .bool b => b
  | .null => false
  | .undefined => false
  | .obj _ => true
  | .arr _ => true

/-- First binding of a key in a JavaScript object’s field list. -/
def lookupField : List (String × JsValue) → String → Option JsValue
  | [], _ => none
  | (k, v) :: rest, f => if k = f then some v else lookupField rest f

/-- JavaScript property access `v[f]`: reading a property of `null` or
`undefined` throws a TypeError; on an object it yields the bound value or
`undefined`; on any other value (string, number, boolean, array) the
properties the client reads are absent, hence `undefined`. -/
def jsFieldE : JsValue → String → Except JsError JsValue
  | .null, f => .error (.typeError ("Cannot read properties of null (reading " ++ f ++ ")"))
  | .undefined, f => .error (.typeError ("Cannot read properties of undefined (reading " ++ f ++ ")"))
  | .obj kvs, f => .ok ((lookupField kvs f).getD .undefined)
  | .str _, _ => .ok .undefined
  | .num _, _ => .ok .undefined
  | .bool _, _ => .ok .undefined
  | .arr _, _ => .ok .undefined

/-- JavaScript strict equality `v === lit` against a string literal: true
exactly for the string with the same contents. -/
def strictEqStr : JsValue → String → Bool
  | .str s, t => s = t
  | _, _ => false

/-- HTTP method of a request. -/
inductive Method : Type where
  | get : Method
  | post : Method
  | put : Method
  | delete : Method
  deriving Repr

/-- An outbound HTTP request as the client assembles it: method, full URL
string (the client concatenates, it never encodes), headers, query
parameters (axios `params`), and the optional JSON body. -/
structure Request : Type where
  method : Method
  url : String
  headers : List (String × String)
  params : List (String × String)
  body : Option JsValue
  deriving Repr

/-- The client object: `private readonly baseUrl` and
`private readonly accessToken`. -/
structure LunataskAPI : Type where
  baseUrl : String
  accessToken : String
  deriving Repr

/-- `constructor(accessToken: string)`: the base URL field is initialised to
the fixed literal, the token is captured. -/
def construct (accessToken : String) : LunataskAPI :=
  { baseUrl := "https://api.lunatask.app/v1", accessToken := accessToken }

/-- The `Authorization: bearer <token>` header attached to every request. -/
def authHeader (c : LunataskAPI) : String × String :=
  ("Authorization", "bearer " ++ c.accessToken)

/-- The `Content-Type: application/json` header attached to write requests. -/
def contentTypeHeader : String × String :=
  ("Content-Type", "application/json")

/-! ## Data shapes of `src/lunatask/types.ts` -/

/-- `enum TaskStatus`. -/
inductive TaskStatus : Type where
  | later : TaskStatus
  | next : TaskStatus
  | started : TaskStatus
  | waiting : TaskStatus
  | completed : TaskStatus
  deriving Repr, DecidableEq

/-- `enum TaskPriority` (integer values 2, 1, 0, -1, -2). -/
def TaskPriority.values : List Int := [2, 1, 0, -1, -2]

/-- `enum TaskMotivation`. -/
inductive TaskMotivation : Type where
  | must : TaskMotivation
  | should : TaskMotivation
  | want : TaskMotivation
  | unknown : TaskMotivation
  deriving Repr, DecidableEq

/-- `enum TaskEisenhower` (integer values 1, 2, 3, 4, 0). -/
def TaskEisenhower.values : List Nat := [1, 2, 3, 4, 0]

/-- `interface ExternalSource`. -/
structure ExternalSource : Type where
  source : String
  source_id : String
  deriving Repr, DecidableEq

/-- `interface Task` (optional and nullable fields become `Option`;
timestamps stay opaque strings, exactly as in the source). -/
structure Task : Type where
  id : String
  area_id : String
  goal_id : Option String
  status : TaskStatus
  previous_status : Option TaskStatus
  estimate : Option Int
  priority : Int
  motivation : TaskMotivation
  eisenhower : Nat
  sources : List ExternalSource
  scheduled_on : Option String
  completed_at : Option String
  created_at : String
  updated_at : String
  deleted_at : Option String
  deriving Repr, DecidableEq

/-! ## Request assembly

Each operation assembles exactly the request the TypeScript method hands to
axios: URL built by template-string concatenation, the headers object, and
(for `retrieveAll`) the `params` object. -/

/-- Request of `ping`: GET `${baseUrl}/ping` with the auth header. -/
def pingRequest (c : LunataskAPI) : Request :=
  { method := .get
    url := c.baseUrl ++ "/ping"
    headers := [authHeader c]
    params := []
    body := none }

/-- The `params` object of `retrieveAll`: starts empty; `if (source)
params.source = source` and `if (source_id) params.source_id = source_id`
add a key only when the argument is present and truthy (a non-empty
string). -/
def retrieveAllParams (source source_id : Option String) : List (String × String) :=
  (match source with
    | some s => if s ≠ "" then [("source", s)] else []
    | none => []) ++
  (match source_id with
    | some s => if s ≠ "" then [("source_id", s)] else []
    | none => [])

/-- Request of `retrieveAll`: GET `${baseUrl}/tasks` with the auth header
and the assembled query params. -/
def retrieveAllRequest (c : LunataskAPI) (source source_id : Option String) : Request :=
  { method := .get
    url := c.baseUrl ++ "/tasks"
    headers := [authHeader c]
    params := retrieveAllParams source source_id
    body := none }

/-- Request of `retrieveSingle`: GET `${baseUrl}/tasks/${taskId}`. -/
def retrieveSingleRequest (c : LunataskAPI) (taskId : String) : Request :=
  { method := .get
    url := c.baseUrl ++ "/tasks/" ++ taskId
    headers := [authHeader c]
    params := []
    body := none }

/-- Request of `createTask`: POST `${baseUrl}/tasks` with the params value
as JSON body and both headers. -/
def createTaskRequest (c : LunataskAPI) (taskParams : JsValue) : Request :=
  { method := .post
    url := c.baseUrl ++ "/tasks"
    headers := [authHeader c, contentTypeHeader]
    params := []
    body := some taskParams }

/-- Request of `updateTask`: PUT `${baseUrl}/tasks/${taskId}` with the
params value as JSON body and both headers. -/
def updateTaskRequest (c : LunataskAPI) (taskId : String) (taskParams : JsValue) : Request :=
  { method := .put
    url := c.baseUrl ++ "/tasks/" ++ taskId
    headers := [authHeader c, contentTypeHeader]
    params := []
    body := some taskParams }

/-- Request of `deleteTask`: DELETE `${baseUrl}/tasks/${taskId}`. -/
def deleteTaskRequest (c : LunataskAPI) (taskId : String) : Request :=
  { method := .delete
    url := c.baseUrl ++ "/tasks/" ++ taskId
    headers := [authHeader c]
    params := []
    body := none }

/-! ## Response handling

Each handler is the body of the TypeScript method from the `await` on: what
the method does with the axios outcome. A `console.error` call becomes an
emitted `(message, error)` log entry. -/

/-- A `console.error(message, error)` diagnostic entry. -/
abbrev LogEntry := String × JsError

/-- `ping` after the await: on a 2xx response return
`response.data && response.data.message === 'pong'` (JavaScript `&&`
returns the falsy left operand itself when it short-circuits); the catch
block logs and returns `false`. The property access cannot throw when the
data is truthy, but its error case is still routed through the catch, as in
the source. -/
def pingHandle : AxiosResult → JsValue × List LogEntry
  | .success data =>
    if jsTruthy data then
      match jsFieldE data "message" with
      | .ok v => (.bool (strictEqStr v "pong"), [])
      | .error e => (.bool false, [("Authentication failed:", e)])
    else (data, [])
  | .failure e => (.bool false, [("Authentication failed:", e)])

/-- `retrieveAll` after the await: return `response.data.tasks`; the catch
block logs and rethrows the caught error unchanged. -/
def retrieveAllHandle : AxiosResult → Except JsError JsValue × List LogEntry
  | .success data =>
    match jsFieldE data "tasks" with
    | .ok v => (.ok v, [])
    | .error e => (.error e, [("Error retrieving tasks:", e)])
  | .failure e => (.error e, [("Error retrieving tasks:", e)])

/-- `retrieveSingle` after the await: return `response.data.task`; the
catch block logs (with the task id in the message) and rethrows. -/
def retrieveSingleHandle (taskId : String) : AxiosResult → Except JsError JsValue × List LogEntry
  | .success data =>
    match jsFieldE data "task" with
    | .ok v => (.ok v, [])
    | .error e => (.error e, [("Error retrieving task with ID " ++ taskId ++ ":", e)])
  | .failure e => (.error e, [("Error retrieving task with ID " ++ taskId ++ ":", e)])

/-- `createTask` after the await: return `response.data.task`; the catch
block logs and rethrows. -/
def createTaskHandle : AxiosResult → Except JsError JsValue × List LogEntry
  | .success data =>
    match jsFieldE data "task" with
    | .ok v => (.ok v, [])
    | .error e => (.error e, [("Error creating task:", e)])
  | .failure e => (.error e, [("Error creating task:", e)])

/-- `updateTask` after the await: return `response.data.task`; the catch
block logs and rethrows. -/
def updateTaskHandle (taskId : String) : AxiosResult → Except JsError JsValue × List LogEntry
  | .success data =>
    match jsFieldE data "task" with
    | .ok v => (.ok v, [])
    | .error e => (.error e, [("Error updating task with ID " ++ taskId ++ ":", e)])
  | .failure e => (.error e, [("Error updating task with ID " ++ taskId ++ ":", e)])

/-- `deleteTask` after the await: return `response.data.task`; the catch
block logs and rethrows. -/
def deleteTaskHandle (taskId : String) : AxiosResult → Except JsError JsValue × List LogEntry
  | .success data =>
    match jsFieldE data "task" with
    | .ok v => (.ok v, [])
    | .error e => (.error e, [("Error deleting task with ID " ++ taskId ++ ":", e)])
  | .failure e => (.error e, [("Error deleting task with ID " ++ taskId ++ ":", e)])

/-! ## Operations as request-issuing programs -/

/-- A client-side program that may issue HTTP requests through an oracle
transport and then produce a value. -/
inductive HttpProg (α : Type) : Type where
  | request : Request → (AxiosResult → HttpProg α) → HttpProg α
  | done : α → HttpProg α

/-- Run a program against a transport oracle, collecting the trace of every
request issued, in order. -/
def runProg {α : Type} : HttpProg α → (Request → AxiosResult) → α × List Request
  | .done a, _ => (a, [])
  | .request r k, http =>
    let rest := runProg (k (http r)) http
    (rest.1, r :: rest.2)

/-- `async ping()`: one axios GET, then the swallow-and-report handler. -/
def ping (c : LunataskAPI) : HttpProg (JsValue × List LogEntry) :=
  .request (pingRequest c) fun res => .done (pingHandle res)

/-- `async retrieveAll(source?, source_id?)`: one axios GET with the
assembled query params, then the propagate handler. -/
def retrieveAll (c : LunataskAPI) (source source_id : Option String) :
    HttpProg (Except JsError JsValue × List LogEntry) :=
  .request (retrieveAllRequest c source source_id) fun res => .done (retrieveAllHandle res)

/-- `async retrieveSingle(taskId)`: one axios GET, then the propagate
handler. -/
def retrieveSingle (c : LunataskAPI) (taskId : String) :
    HttpProg (Except JsError JsValue × List LogEntry) :=
  .request (retrieveSingleRequest c taskId) fun res => .done (retrieveSingleHandle taskId res)

/-- `async createTask(taskParams)`: one axios POST, then the propagate
handler. -/
def createTask (c : LunataskAPI) (taskParams : JsValue) :
    HttpProg (Except JsError JsValue × List LogEntry) :=
  .request (createTaskRequest c taskParams) fun res => .done (createTaskHandle res)

/-- `async updateTask(taskId, taskParams)`: one axios PUT, then the
propagate handler. -/
def updateTask (c : LunataskAPI) (taskId : String) (taskParams : JsValue) :
    HttpProg (Except JsError JsValue × List LogEntry) :=
  .request (updateTaskRequest c taskId taskParams) fun res => .done (updateTaskHandle taskId res)

/-- `async deleteTask(taskId)`: one axios DELETE, then the propagate
handler. -/
def deleteTask (c : LunataskAPI) (taskId : String) :
    HttpProg (Except JsError JsValue × List LogEntry) :=
  .request (deleteTaskRequest c taskId) fun res => .done (deleteTaskHandle taskId res)

/-! ## Helper lemmas -/

/-- Strict equality against a string literal holds exactly for that
string. -/
theorem strictEqStr_eq_true_iff (v : JsValue) (t : String) :
    strictEqStr v t = true ↔ v = .str t := by
  cases v <;> simp [strictEqStr]

/-- Full behaviour of the `ping` handler, by cases on the axios outcome. -/
theorem pingHandle_spec (res : AxiosResult) :
    ((pingHandle res).1 = .bool true ↔
      ∃ data, res = .success data ∧ jsTruthy data = true ∧
        jsFieldE data "message" = .ok (.str "pong")) ∧
    (∀ e, res = .failure e →
      pingHandle res = (.bool false, [("Authentication failed:", e)])) ∧
    (∀ data, res = .success data → jsTruthy data = true →
      jsFieldE data "message" ≠ .ok (.str "pong") → (pingHandle res).1 = .bool false) ∧
    (∀ data, res = .success data → jsTruthy data = false → (pingHandle res).1 = data) := by
  obtain (data | e) := res
  · refine ⟨?_, ?_, ?_, ?_⟩
    · by_cases ht : jsTruthy data
      · cases hf : jsFieldE data "message" with
        | ok v => simp [pingHandle, ht, hf, strictEqStr_eq_true_iff]
        | error e => simp [pingHandle, ht, hf]
      · have hfalse : jsTruthy data = false := by simpa using ht
        simp only [pingHandle, hfalse, Bool.false_eq_true, if_false,
          AxiosResult.success.injEq]
        constructor
        · intro h
          subst h
          simp [jsTruthy] at hfalse
        · rintro ⟨d, rfl, htd, _⟩
          rw [hfalse] at htd
          cases htd
    · intro e h
      cases h
    · intro d h htd hne
      cases h
      cases hf : jsFieldE data "message" with
      | ok v =>
        have hv : v ≠ .str "pong" := fun hv => hne (hv ▸ hf)
        have hse : strictEqStr v "pong" = false := by
          cases v <;> simp [strictEqStr]
          intro hv'
          exact hv (by rw [hv'])
        simp [pingHandle, htd, hf, hse]
      | error e => simp [pingHandle, htd, hf]
    · intro d h htd
      cases h
      simp [pingHandle, htd]
  · refine ⟨by simp [pingHandle], ?_, ?_, ?_⟩
    · intro e' h
      cases h
      rfl
    · intro d h
      cases h
    · intro d h
      cases h

/-! ## Claims -/

/-- C1 (counterexample): `ping` does not always return the boolean `false`
on a 2xx response whose body is not a pong envelope. If the transport
yields a 2xx response with the falsy body `""` (an empty response body),
`response.data && response.data.message === 'pong'` short-circuits and
`ping` resolves with the string `""` itself, which is neither the boolean
`false` nor the boolean `true`. -/
theorem ping_falsy_body_returns_body_not_false :
    (runProg (ping (construct "tkn")) (fun _ => .success (.str ""))).1.1 = .str "" ∧
    JsValue.str "" ≠ JsValue.bool false ∧
    JsValue.str "" ≠ JsValue.bool true :=
  ⟨rfl, fun h => JsValue.noConfusion h, fun h => JsValue.noConfusion h⟩

/-- C1 (amended): `ping` never raises — its handler is a total function
into values. It returns the boolean `true` iff the response is 2xx with a
truthy body whose `message` field is the string `"pong"`; on a transport
error or non-2xx response it returns the boolean `false` and logs the
error; on a truthy 2xx body whose `message` is not `"pong"` it returns the
boolean `false`; on a falsy 2xx body it returns that falsy body value
itself (which is never the boolean `true`) rather than the boolean
`false`. -/
theorem ping_swallow_semantics (c : LunataskAPI) (http : Request → AxiosResult) :
    ((runProg (ping c) http).1.1 = .bool true ↔
      ∃ data, http (pingRequest c) = .success data ∧ jsTruthy data = true ∧
        jsFieldE data "message" = .ok (.str "pong")) ∧
    (∀ e, http (pingRequest c) = .failure e →
      (runProg (ping c) http).1 = (.bool false, [("Authentication failed:", e)])) ∧
    (∀ data, http (pingRequest c) = .success data → jsTruthy data = true →
      jsFieldE data "message" ≠ .ok (.str "pong") →
      (runProg (ping c) http).1.1 = .bool false) ∧
    (∀ data, http (pingRequest c) = .success data → jsTruthy data = false →
      (runProg (ping c) http).1.1 = data) :=
  pingHandle_spec (http (pingRequest c))

/-- Witness for the amended C1 theorem at concrete inputs: a 401 rejection
makes `ping` return the boolean `false` with one log entry, and a pong
envelope makes it return the boolean `true`. -/
theorem ping_swallow_semantics_witness :
    (runProg (ping (construct "tkn")) (fun _ => .failure (.axiosStatus 401 .null))).1 =
      (.bool false, [("Authentication failed:", .axiosStatus 401 .null)]) ∧
    (runProg (ping (construct "tkn"))
        (fun _ => .success (.obj [("message", .str "pong")]))).1.1 = .bool true :=
  ⟨(ping_swallow_semantics (construct "tkn") (fun _ => .failure (.axiosStatus 401 .null))).2.1
      (.axiosStatus 401 .null) rfl,
   (ping_swallow_semantics (construct "tkn")
        (fun _ => .success (.obj [("message", .str "pong")]))).1.mpr
      ⟨.obj [("message", .str "pong")], rfl, rfl, rfl⟩⟩

/-- C2 (counterexample): calling `retrieveAll` with the source argument
provided but equal to the empty string sends no query parameter at all:
`if (source)` tests truthiness, not presence, so the provided empty string
is dropped. -/
theorem retrieveAll_empty_string_source_dropped :
    (retrieveAllRequest (construct "tkn") (some "") (some "")).params = [] :=
  rfl

/-- C2 (amended): a `source` query parameter with value `v` is sent iff the
source argument is provided and non-empty (and likewise `source_id`); the
two arguments are independent — each parameter's presence depends only on
its own argument — and no other query parameter is ever sent. -/
theorem retrieveAll_query_param_spec (c : LunataskAPI) (source source_id : Option String) :
    (∀ v, ("source", v) ∈ (retrieveAllRequest c source source_id).params ↔
      (source = some v ∧ v ≠ "")) ∧
    (∀ v, ("source_id", v) ∈ (retrieveAllRequest c source source_id).params ↔
      (source_id = some v ∧ v ≠ "")) ∧
    (∀ kv, kv ∈ (retrieveAllRequest c source source_id).params →
      kv.1 = "source" ∨ kv.1 = "source_id") := by
  refine ⟨?_, ?_, ?_⟩ <;>
    obtain (_ | s) := source <;>
    obtain (_ | sid) := source_id <;>
    simp [retrieveAllRequest, retrieveAllParams] <;>
    first
      | (intro v
         constructor
         · rintro ⟨h1, h2⟩
           simp_all
         · rintro ⟨rfl, h⟩
           simp_all)
      | (intro a b h
         rcases h with ⟨h1, h2⟩ | ⟨h1, h2⟩ <;> simp_all)

/-- Witness for the amended C2 theorem: with both arguments provided and
non-empty, both query parameters are sent. -/
theorem retrieveAll_query_param_spec_witness :
    ("source", "todoist") ∈
      (retrieveAllRequest (construct "tkn") (some "todoist") (some "123")).params ∧
    ("source_id", "123") ∈
      (retrieveAllRequest (construct "tkn") (some "todoist") (some "123")).params :=
  ⟨((retrieveAll_query_param_spec (construct "tkn") (some "todoist") (some "123")).1
      "todoist").mpr ⟨rfl, by decide⟩,
   ((retrieveAll_query_param_spec (construct "tkn") (some "todoist") (some "123")).2.1
      "123").mpr ⟨rfl, by decide⟩⟩

/-- C3: every operation other than `ping` — `retrieveAll`,
`retrieveSingle`, `createTask`, `updateTask`, `deleteTask` — reacts to any
failure (an axios rejection, or the TypeError thrown by reading the
envelope field of a null/undefined body) by emitting exactly one
diagnostic log entry carrying the caught error and re-raising that
identical error value, unwrapped and unmodified. -/
theorem non_ping_operations_log_and_rethrow_unchanged
    (taskId : String) (e : JsError) (data : JsValue) :
    (retrieveAllHandle (.failure e) =
      (.error e, [("Error retrieving tasks:", e)])) ∧
    (retrieveSingleHandle taskId (.failure e) =
      (.error e, [("Error retrieving task with ID " ++ taskId ++ ":", e)])) ∧
    (createTaskHandle (.failure e) =
      (.error e, [("Error creating task:", e)])) ∧
    (updateTaskHandle taskId (.failure e) =
      (.error e, [("Error updating task with ID " ++ taskId ++ ":", e)])) ∧
    (deleteTaskHandle taskId (.failure e) =
      (.error e, [("Error deleting task with ID " ++ taskId ++ ":", e)])) ∧
    (∀ e', jsFieldE data "tasks" = .error e' →
      retrieveAllHandle (.success data) =
        (.error e', [("Error retrieving tasks:", e')])) ∧
    (∀ e', jsFieldE data "task" = .error e' →
      retrieveSingleHandle taskId (.success data) =
        (.error e', [("Error retrieving task with ID " ++ taskId ++ ":", e')]) ∧
      createTaskHandle (.success data) =
        (.error e', [("Error creating task:", e')]) ∧
      updateTaskHandle taskId (.success data) =
        (.error e', [("Error updating task with ID " ++ taskId ++ ":", e')]) ∧
      deleteTaskHandle taskId (.success data) =
        (.error e', [("Error deleting task with ID " ++ taskId ++ ":", e')])) := by
  refine ⟨rfl, rfl, rfl, rfl, rfl, ?_, ?_⟩
  · intro e' h
    simp [retrieveAllHandle, h]
  · intro e' h
    refine ⟨?_, ?_, ?_, ?_⟩ <;>
      simp [retrieveSingleHandle, createTaskHandle, updateTaskHandle, deleteTaskHandle, h]

/-- Witness for C3 at concrete inputs: a network rejection is logged and
re-raised by `retrieveAll`, and a 2xx response with body `null` makes
`createTask` log and re-raise the TypeError produced by reading `.task`. -/
theorem non_ping_log_and_rethrow_witness :
    retrieveAllHandle (.failure (.axiosNetwork "ECONNREFUSED")) =
      (.error (.axiosNetwork "ECONNREFUSED"),
       [("Error retrieving tasks:", .axiosNetwork "ECONNREFUSED")]) ∧
    createTaskHandle (.success .null) =
      (.error (.typeError "Cannot read properties of null (reading task)"),
       [("Error creating task:",
         .typeError "Cannot read properties of null (reading task)")]) :=
  ⟨(non_ping_operations_log_and_rethrow_unchanged "x" (.axiosNetwork "ECONNREFUSED") .null).1,
   ((non_ping_operations_log_and_rethrow_unchanged "x" (.axiosNetwork "ECONNREFUSED")
      .null).2.2.2.2.2.2 (.typeError "Cannot read properties of null (reading task)")
      rfl).2.1⟩

/-- C4: on a successful (2xx) response whose envelope binds `task` to `t`,
each of `retrieveSingle`, `createTask`, `updateTask` and `deleteTask`
returns exactly `t`, unmodified, with no log entry. -/
theorem single_task_operations_return_envelope_task
    (taskId : String) (data t : JsValue) (h : jsFieldE data "task" = .ok t) :
    retrieveSingleHandle taskId (.success data) = (.ok t, []) ∧
    createTaskHandle (.success data) = (.ok t, []) ∧
    updateTaskHandle taskId (.success data) = (.ok t, []) ∧
    deleteTaskHandle taskId (.success data) = (.ok t, []) := by
  refine ⟨?_, ?_, ?_, ?_⟩ <;>
    simp [retrieveSingleHandle, createTaskHandle, updateTaskHandle, deleteTaskHandle, h]

/-- Witness for C4 at a concrete envelope: the bound task value comes back
verbatim, server-assigned fields included. -/
theorem single_task_envelope_witness :
    deleteTaskHandle "42" (.success (.obj [("task",
        .obj [("id", .str "42"), ("deleted_at", .str "2024-01-01T00:00:00Z")])])) =
      (.ok (.obj [("id", .str "42"), ("deleted_at", .str "2024-01-01T00:00:00Z")]), []) :=
  (single_task_operations_return_envelope_task "42"
    (.obj [("task", .obj [("id", .str "42"), ("deleted_at", .str "2024-01-01T00:00:00Z")])])
    (.obj [("id", .str "42"), ("deleted_at", .str "2024-01-01T00:00:00Z")]) rfl).2.2.2

/-- C5: on a successful (2xx) response whose envelope binds `tasks` to the
array `tasks`, `retrieveAll` returns exactly that array — same elements,
same order, nothing inserted, removed, sorted or filtered — with no log
entry. -/
theorem retrieveAll_returns_envelope_tasks_exactly
    (data : JsValue) (tasks : List JsValue)
    (h : jsFieldE data "tasks" = .ok (.arr tasks)) :
    retrieveAllHandle (.success data) = (.ok (.arr tasks), []) := by
  simp [retrieveAllHandle, h]

/-- Witness for C5 at a concrete two-element envelope: order and contents
are preserved. -/
theorem retrieveAll_envelope_witness :
    retrieveAllHandle (.success (.obj [("tasks",
        .arr [.obj [("id", .str "b")], .obj [("id", .str "a")]])])) =
      (.ok (.arr [.obj [("id", .str "b")], .obj [("id", .str "a")]]), []) :=
  retrieveAll_returns_envelope_tasks_exactly
    (.obj [("tasks", .arr [.obj [("id", .str "b")], .obj [("id", .str "a")]])])
    [.obj [("id", .str "b")], .obj [("id", .str "a")]] rfl

/-- C6 (counterexample): `deleteTask`'s DELETE request does not carry a
`Content-Type: application/json` header — its header list is exactly the
auth header alone. -/
theorem deleteTask_has_no_content_type_header :
    (deleteTaskRequest (construct "tkn") "42").headers =
      [("Authorization", "bearer tkn")] ∧
    ("Content-Type", "application/json") ∉
      (deleteTaskRequest (construct "tkn") "42").headers := by
  refine ⟨rfl, ?_⟩
  decide

/-- C6 (amended): every request assembled by the six operations carries
exactly the header `Authorization: bearer <token>` built from the
construction-time token, and the two write requests that carry a body
(`createTask`'s POST and `updateTask`'s PUT) additionally carry
`Content-Type: application/json`; `deleteTask`'s DELETE carries only the
auth header. -/
theorem requests_carry_auth_and_content_type_headers
    (token taskId : String) (taskParams : JsValue) (source source_id : Option String) :
    (pingRequest (construct token)).headers =
      [("Authorization", "bearer " ++ token)] ∧
    (retrieveAllRequest (construct token) source source_id).headers =
      [("Authorization", "bearer " ++ token)] ∧
    (retrieveSingleRequest (construct token) taskId).headers =
      [("Authorization", "bearer " ++ token)] ∧
    (createTaskRequest (construct token) taskParams).headers =
      [("Authorization", "bearer " ++ token), ("Content-Type", "application/json")] ∧
    (updateTaskRequest (construct token) taskId taskParams).headers =
      [("Authorization", "bearer " ++ token), ("Content-Type", "application/json")] ∧
    (deleteTaskRequest (construct token) taskId).headers =
      [("Authorization", "bearer " ++ token)] :=
  ⟨rfl, rfl, rfl, rfl, rfl, rfl⟩

/-- C7: the client is an immutable value — the constructor fixes the base
URL to the literal constant and captures the token, and since no method
assigns to any field (each operation is a pure function of the client in
this embedding), every request any operation produces is determined by the
client's two construction-time fields together with the operation's own
arguments. -/
theorem client_immutable_requests_determined_by_token_and_args
    (token : String) (c c' : LunataskAPI)
    (hbase : c.baseUrl = c'.baseUrl) (htok : c.accessToken = c'.accessToken)
    (taskId : String) (taskParams : JsValue) (source source_id : Option String) :
    (construct token).baseUrl = "https://api.lunatask.app/v1" ∧
    (construct token).accessToken = token ∧
    pingRequest c = pingRequest c' ∧
    retrieveAllRequest c source source_id = retrieveAllRequest c' source source_id ∧
    retrieveSingleRequest c taskId = retrieveSingleRequest c' taskId ∧
    createTaskRequest c taskParams = createTaskRequest c' taskParams ∧
    updateTaskRequest c taskId taskParams = updateTaskRequest c' taskId taskParams ∧
    deleteTaskRequest c taskId = deleteTaskRequest c' taskId := by
  obtain ⟨cb, ct⟩ := c
  obtain ⟨cb', ct'⟩ := c'
  cases hbase
  cases htok
  exact ⟨rfl, rfl, rfl, rfl, rfl, rfl, rfl, rfl⟩

/-- Witness for C7 at a concrete token: the constructed client's fields are
the fixed base URL and the given token, and two equal-field clients
assemble the same ping request. -/
theorem client_immutable_witness :
    (construct "secret").baseUrl = "https://api.lunatask.app/v1" ∧
    (construct "secret").accessToken = "secret" ∧
    pingRequest (construct "secret") = pingRequest (construct "secret") :=
  ⟨(client_immutable_requests_determined_by_token_and_args "secret"
      (construct "secret") (construct "secret") rfl rfl "id" .null none none).1,
   (client_immutable_requests_determined_by_token_and_args "secret"
      (construct "secret") (construct "secret") rfl rfl "id" .null none none).2.1,
   (client_immutable_requests_determined_by_token_and_args "secret"
      (construct "secret") (construct "secret") rfl rfl "id" .null none none).2.2.1⟩

/-- C8: against an arbitrary transport oracle — so whatever the outcome,
success or failure — each of the six operations issues exactly one
outbound request, namely the one it assembled; no operation retries, and
none issues zero or more than one request. -/
theorem one_request_per_operation (c : LunataskAPI) (http : Request → AxiosResult)
    (taskId : String) (taskParams : JsValue) (source source_id : Option String) :
    (runProg (ping c) http).2 = [pingRequest c] ∧
    (runProg (retrieveAll c source source_id) http).2 =
      [retrieveAllRequest c source source_id] ∧
    (runProg (retrieveSingle c taskId) http).2 = [retrieveSingleRequest c taskId] ∧
    (runProg (createTask c taskParams) http).2 = [createTaskRequest c taskParams] ∧
    (runProg (updateTask c taskId taskParams) http).2 =
      [updateTaskRequest c taskId taskParams] ∧
    (runProg (deleteTask c taskId) http).2 = [deleteTaskRequest c taskId] :=
  ⟨rfl, rfl, rfl, rfl, rfl, rfl⟩

/-- C9: if the server answers a `retrieveAll` request with a 2xx response
whose body is an object that has no `tasks` key, the call resolves
successfully with the JavaScript value `undefined` — no exception, no log
entry, and no substitution of an empty array: the client never validates
the envelope's shape. -/
theorem retrieveAll_missing_tasks_resolves_undefined
    (kvs : List (String × JsValue)) (h : lookupField kvs "tasks" = none) :
    retrieveAllHandle (.success (.obj kvs)) = (.ok .undefined, []) := by
  simp [retrieveAllHandle, jsFieldE, h]

/-- Witness for C9 at a concrete envelope without a `tasks` key. -/
theorem retrieveAll_missing_tasks_witness :
    retrieveAllHandle (.success (.obj [("total", .num 3)])) = (.ok .undefined, []) :=
  retrieveAll_missing_tasks_resolves_undefined [("total", .num 3)] rfl

/-- C10: `retrieveSingle`, `updateTask` and `deleteTask` build the request
URL as the verbatim string concatenation `baseUrl ++ "/tasks/" ++ taskId`,
for every task id — there is no percent-encoding or escaping step — so a
task id containing reserved characters such as `/`, `?` or `#` lands
verbatim in the URL and changes the request's path or query. -/
theorem single_task_url_is_verbatim_concatenation
    (c : LunataskAPI) (taskId : String) (taskParams : JsValue) :
    (retrieveSingleRequest c taskId).url = c.baseUrl ++ "/tasks/" ++ taskId ∧
    (updateTaskRequest c taskId taskParams).url = c.baseUrl ++ "/tasks/" ++ taskId ∧
    (deleteTaskRequest c taskId).url = c.baseUrl ++ "/tasks/" ++ taskId ∧
    (retrieveSingleRequest (construct "tkn") "a/b?x=1#f").url =
      "https://api.lunatask.app/v1/tasks/a/b?x=1#f" :=
  ⟨rfl, rfl, rfl, rfl⟩

end Lunatask
